import Mathlib

/-!
Verification of the noisy-simulator core (`noisy-simulator/src/density_matrix_simulator.rs`
and its PyO3 wrapper `pip/src/noisy_simulator.rs`).

Embedding conventions:
* `f64` values are embedded as exact rationals `ℚ`; complex scalars as pairs of
  rationals (`Cq`).  The claims under study are about control flow, error latching
  and the exact arithmetic relations of the code, not about rounding.
* Methods taking `&mut self` are embedded as functions returning the updated
  value paired with the `Result`: `… → State × Except Error T`.
* The `apply_kernel` function lives in `kernel.rs`, which is not among the
  provided sources.  All simulator definitions are therefore parameterized by an
  arbitrary kernel function (`Kernel`); the theorems below hold for every kernel.
  A concrete kernel following the spec's description (`applyKernelSpec`) is
  provided so that concrete runs can be evaluated.
-/

/-- A complex scalar: a pair of (exact) rationals standing for the two `f64`
components of `num_complex::Complex<f64>`. -/
structure Cq where
  re : ℚ
  im : ℚ
deriving DecidableEq, Repr

def Cq.zero : Cq := ⟨0, 0⟩

def Cq.one : Cq := ⟨1, 0⟩

def Cq.add (a b : Cq) : Cq := ⟨a.re + b.re, a.im + b.im⟩

def Cq.mul (a b : Cq) : Cq := ⟨a.re * b.re - a.im * b.im, a.re * b.im + a.im * b.re⟩

/-- Multiplication of a complex entry by a real scalar (`*entry *= factor`). -/
def Cq.scale (r : ℚ) (a : Cq) : Cq := ⟨a.re * r, a.im * r⟩

/-- Sum of a list of complex scalars, accumulated left-to-right as the Rust
`for` loops do. -/
def csum (l : List Cq) : Cq := l.foldl Cq.add Cq.zero

/-- Embeds `ComplexVector` (`nalgebra::DVector<Complex<f64>>`). -/
abbrev ComplexVector := List Cq

/-- Embeds `SquareMatrix` (`nalgebra::DMatrix<Complex<f64>>`), stored as rows. -/
abbrev SquareMatrix := List (List Cq)

/-- Element access `m[(row, col)]`. -/
def SquareMatrix.entry (m : SquareMatrix) (r c : ℕ) : Cq :=
  (m.getD r []).getD c Cq.zero

/-- Modelled from the spec: the crate-level `TOLERANCE` constant is defined in
the crate root (`noisy-simulator/src/lib.rs`), which is not among the provided
sources.  The spec (§3) fixes it "on the order of 1e-12". -/
def TOLERANCE : ℚ := 1 / 10 ^ 12

/-- The crate's `Error` enum, restricted to the taxonomy the provided sources
and the spec (§7) use.  `KernelFailure` stands for the shape/arity failures the
kernel can report (spec §4.1); the kernel itself is outside the provided
sources. -/
inductive Error where
  | NotNormalized : ℚ → Error
  | ProbabilityZeroEvent : Error
  | FailedToSampleInstrumentOutcome : Error
  | InvalidState : String → Error
  | KernelFailure : Error
deriving DecidableEq, Repr

/-- The type of `apply_kernel`: it reads the state vector, a matrix and a list
of axes and either fails (leaving the state untouched, since per spec §4.1 all
failures are input-validation failures) or produces the mutated state data. -/
abbrev Kernel := ComplexVector → SquareMatrix → List ℕ → Except Error ComplexVector

/-- Modelled from the spec: `Operation` (`operation.rs`, not among the provided
sources).  Only the cached accessors the density-matrix simulator uses are
modelled: `matrix()` (the vectorized super-operator O) and
`effect_matrix_transpose()` (Eᵀ).  Both are opaque data here. -/
structure Operation where
  matrix : SquareMatrix
  effect_matrix_transpose : SquareMatrix
deriving DecidableEq, Repr

/-- Modelled from the spec: `Instrument` (`instrument.rs`, not among the
provided sources).  Only the accessors the simulator uses are modelled:
the ordered operation list, `total_effect_transposed()` (Tᵀ) and
`non_selective_operation_matrix()` (N). -/
structure Instrument where
  operations : List Operation
  total_effect_transposed : SquareMatrix
  non_selective_operation_matrix : SquareMatrix
deriving DecidableEq, Repr

/-- Default used for (unreachable) out-of-range indexing into the operation
list; the Rust `Vec` indexing panics there instead. -/
def defaultOperation : Operation := ⟨[], []⟩

/-- Embeds `Instrument::num_operations`. -/
def Instrument.num_operations (instr : Instrument) : ℕ := instr.operations.length

/-- Embeds `Instrument::operation(i)`. -/
def Instrument.operation (instr : Instrument) (i : ℕ) : Operation :=
  instr.operations.getD i defaultOperation

/-- The vectorized density matrix (`DensityMatrix` in
`density_matrix_simulator.rs`). -/
structure DensityMatrix where
  dim : ℕ
  number_of_qubits : ℕ
  trace_change : ℚ
  data : ComplexVector
deriving DecidableEq, Repr

/-- Embeds `DensityMatrix::new`: `dim = 1 << n`, `data = zeros(dim * dim)` with
`data[0].re = 1.0`. -/
def DensityMatrix.new (number_of_qubits : ℕ) : DensityMatrix :=
  let dim := 1 <<< number_of_qubits
  { dim, number_of_qubits, trace_change := 1,
    data := (List.range (dim * dim)).map fun i => if i = 0 then Cq.one else Cq.zero }

/-- Embeds `DensityMatrix::try_from`: builds a `DensityMatrix` from its raw fields,
returning `none` iff `1 << number_of_qubits != dim || data.len() != dim * dim`. -/
def DensityMatrix.try_from (dim number_of_qubits : ℕ) (trace_change : ℚ)
    (data : ComplexVector) : Option DensityMatrix :=
  if 1 <<< number_of_qubits ≠ dim ∨ data.length ≠ dim * dim then none
  else some { dim, number_of_qubits, trace_change, data }

/-- Embeds `DensityMatrix::trace`: sum of `data[(dim + 1) * idx]` for `idx in 0..dim`,
returning the real part.  (The Rust code additionally asserts that the
imaginary part is ≤ `TOLERANCE`; an assertion failure aborts the process and is
outside the `Result`-based error model embedded here.) -/
def DensityMatrix.trace (dm : DensityMatrix) : ℚ :=
  (csum ((List.range dm.dim).map fun idx => dm.data.getD ((dm.dim + 1) * idx) Cq.zero)).re

/-- Embeds `f64::abs`, written with an explicit case split so that it evaluates by
kernel reduction (`|·|` on `ℚ` goes through lattice instances). -/
def qabs (x : ℚ) : ℚ := if x < 0 then -x else x

/-- Embeds `DensityMatrix::is_hermitian`. -/
def DensityMatrix.is_hermitian (dm : DensityMatrix) : Bool :=
  (List.range dm.dim).all fun row =>
    (List.range dm.dim).all fun col =>
      let elt := dm.data.getD (dm.dim * row + col) Cq.zero
      let mirror_elt := dm.data.getD (dm.dim * col + row) Cq.zero
      !(decide (qabs (elt.re - mirror_elt.re) > TOLERANCE)
        || decide (qabs (elt.im + mirror_elt.im) > TOLERANCE))

/-- Embeds `DensityMatrix::is_normalized`: the trace is 1 within `TOLERANCE`. -/
def DensityMatrix.is_normalized (dm : DensityMatrix) : Bool :=
  decide (qabs (dm.trace - 1) ≤ TOLERANCE)

/-- Embeds `DensityMatrix::renormalize_with_trace`: fails (and leaves the matrix
untouched, the Rust code returns before mutating) when the precomputed trace is
below `TOLERANCE`; otherwise multiplies `trace_change` by it and scales every
entry by its inverse. -/
def DensityMatrix.renormalize_with_trace (dm : DensityMatrix) (trace : ℚ) :
    DensityMatrix × Except Error Unit :=
  if trace < TOLERANCE then (dm, .error .ProbabilityZeroEvent)
  else ({ dm with trace_change := dm.trace_change * trace,
                  data := dm.data.map (Cq.scale (1 / trace)) }, .ok ())

/-- Embeds `DensityMatrix::renormalize`. -/
def DensityMatrix.renormalize (dm : DensityMatrix) : DensityMatrix × Except Error Unit :=
  dm.renormalize_with_trace dm.trace

/-- The `qubits_expanded` vector built by `DensityMatrix::apply_operation_matrix`:
two `for` loops pushing first every qubit id and then every id offset by the
number of qubits. -/
def qubitsExpanded (qubits : List ℕ) (number_of_qubits : ℕ) : List ℕ :=
  let e := qubits.foldl (fun acc id => acc.concat id) []
  qubits.foldl (fun acc id => acc.concat (id + number_of_qubits)) e

/-- Embeds `DensityMatrix::apply_operation_matrix`: applies the operation matrix to
the doubled (row and column) axes through the kernel. -/
def DensityMatrix.apply_operation_matrix (k : Kernel) (dm : DensityMatrix)
    (operation_matrix : SquareMatrix) (qubits : List ℕ) :
    DensityMatrix × Except Error Unit :=
  match k dm.data operation_matrix (qubitsExpanded qubits dm.number_of_qubits) with
  | .error e => (dm, .error e)
  | .ok d => ({ dm with data := d }, .ok ())

/-- The `DensityMatrixSimulator`: either a density matrix or a latched error,
plus the separately recorded dimension. -/
structure DensityMatrixSimulator where
  state : Except Error DensityMatrix
  dim : ℕ

deriving instance DecidableEq for Except

deriving instance DecidableEq for DensityMatrixSimulator

deriving instance Repr for DensityMatrixSimulator

/-- Modelled from the spec: the `handle_error!` macro is defined in the crate
root (`noisy-simulator/src/lib.rs`), which is not among the provided sources.
Per spec §7: "on any error, the internal `state` is replaced by the error
variant", and the method returns that error. -/
def handleError {α : Type} (sim : DensityMatrixSimulator) (err : Error) :
    DensityMatrixSimulator × Except Error α :=
  ({ sim with state := .error err }, .error err)

/-- Embeds `DensityMatrixSimulator::new`. -/
def DensityMatrixSimulator.new (number_of_qubits : ℕ) : DensityMatrixSimulator :=
  let density_matrix := DensityMatrix.new number_of_qubits
  { state := .ok density_matrix, dim := density_matrix.dim }

/-- Embeds `DensityMatrixSimulator::apply_operation`: apply the operation matrix (a
failure there is propagated by `?` without latching), then renormalize (a
failure there latches). -/
def DensityMatrixSimulator.apply_operation (k : Kernel) (sim : DensityMatrixSimulator)
    (operation : Operation) (qubits : List ℕ) :
    DensityMatrixSimulator × Except Error Unit :=
  match sim.state with
  | .error e => (sim, .error e)
  | .ok st =>
    match st.apply_operation_matrix k operation.matrix qubits with
    | (_, .error e) => (sim, .error e)
    | (st1, .ok _) =>
      match st1.renormalize with
      | (_, .error err) => handleError sim err
      | (st2, .ok _) => ({ sim with state := .ok st2 }, .ok ())

/-- Embeds `DensityMatrixSimulator::apply_instrument`: as `apply_operation`, with the
instrument's non-selective operation matrix. -/
def DensityMatrixSimulator.apply_instrument (k : Kernel) (sim : DensityMatrixSimulator)
    (instrument : Instrument) (qubits : List ℕ) :
    DensityMatrixSimulator × Except Error Unit :=
  match sim.state with
  | .error e => (sim, .error e)
  | .ok st =>
    match st.apply_operation_matrix k instrument.non_selective_operation_matrix qubits with
    | (_, .error e) => (sim, .error e)
    | (st1, .ok _) =>
      match st1.renormalize with
      | (_, .error err) => handleError sim err
      | (st2, .ok _) => ({ sim with state := .ok st2 }, .ok ())

/-- The accumulator of the sampling loop of
`DensityMatrixSimulator::sample_instrument_with_distribution`. -/
structure SampleAcc where
  last_non_zero_trace_outcome : ℕ
  last_non_zero_trace : ℚ
  summed_probability : ℚ
deriving DecidableEq, Repr

/-- The `for outcome in 0..instrument.num_operations()` loop of
`sample_instrument_with_distribution`: breaks once the summed probability
exceeds the random sample; otherwise clones the state, applies the outcome's
effect-matrix transpose through the kernel (a kernel failure is propagated by
`?`), accumulates the branch trace and records the last outcome whose branch
trace is at least `TOLERANCE`.  The Rust locals `outcome_trace` and `summed`
are inlined. -/
def sampleLoop (k : Kernel) (st : DensityMatrix) (instrument : Instrument)
    (qubits : List ℕ) (total_effect_trace random_sample : ℚ) :
    List ℕ → SampleAcc → Except Error SampleAcc
  | [], acc => .ok acc
  | outcome :: rest, acc =>
    if acc.summed_probability > random_sample then .ok acc
    else
      match k st.data (instrument.operation outcome).effect_matrix_transpose qubits with
      | .error e => .error e
      | .ok d =>
        sampleLoop k st instrument qubits total_effect_trace random_sample rest
          (if DensityMatrix.trace { st with data := d } ≥ TOLERANCE then
            ⟨outcome, DensityMatrix.trace { st with data := d },
              acc.summed_probability +
                DensityMatrix.trace { st with data := d } / total_effect_trace⟩
           else
            ⟨acc.last_non_zero_trace_outcome, acc.last_non_zero_trace,
              acc.summed_probability +
                DensityMatrix.trace { st with data := d } / total_effect_trace⟩)

/-- Embeds `DensityMatrixSimulator::sample_instrument_with_distribution`.  The
Rust local `total_effect_trace` (the trace of the clone after applying the
total effect transpose) is inlined as
`DensityMatrix.trace { st with data := d0 }`. -/
def DensityMatrixSimulator.sample_instrument_with_distribution (k : Kernel)
    (sim : DensityMatrixSimulator) (instrument : Instrument) (qubits : List ℕ)
    (random_sample : ℚ) : DensityMatrixSimulator × Except Error ℕ :=
  match sim.state with
  | .error e => (sim, .error e)
  | .ok st =>
    match k st.data instrument.total_effect_transposed qubits with
    | .error e => (sim, .error e)
    | .ok d0 =>
      if DensityMatrix.trace { st with data := d0 } < TOLERANCE then
        handleError sim .ProbabilityZeroEvent
      else
        match sampleLoop k st instrument qubits
            (DensityMatrix.trace { st with data := d0 }) random_sample
            (List.range instrument.num_operations) ⟨0, 0, 0⟩ with
        | .error e => (sim, .error e)
        | .ok acc =>
          if acc.summed_probability + TOLERANCE ≤ random_sample ∨
              acc.last_non_zero_trace < TOLERANCE then
            handleError sim .FailedToSampleInstrumentOutcome
          else
            match st.apply_operation_matrix k
                (instrument.operation acc.last_non_zero_trace_outcome).matrix qubits with
            | (_, .error e) => handleError sim e
            | (st2, .ok _) =>
              match st2.renormalize_with_trace acc.last_non_zero_trace with
              | (_, .error e) => handleError sim e
              | (st3, .ok _) =>
                ({ sim with state := .ok st3 }, .ok acc.last_non_zero_trace_outcome)

/-- Embeds `DensityMatrixSimulator::sample_instrument`: the Rust method draws
`rand::random()` and delegates; the draw is embedded as the explicit
`random_sample` parameter. -/
def DensityMatrixSimulator.sample_instrument (k : Kernel) (sim : DensityMatrixSimulator)
    (instrument : Instrument) (qubits : List ℕ) (random_sample : ℚ) :
    DensityMatrixSimulator × Except Error ℕ :=
  sim.sample_instrument_with_distribution k instrument qubits random_sample

/-- Embeds `DensityMatrixSimulator::set_state`. -/
def DensityMatrixSimulator.set_state (sim : DensityMatrixSimulator)
    (new_state : DensityMatrix) : DensityMatrixSimulator × Except Error Unit :=
  if sim.dim ≠ new_state.dim then
    (sim, .error (.InvalidState
      ("the provided state should have the same dimensions as the quantum system's state, "
        ++ toString sim.dim ++ " != " ++ toString new_state.dim)))
  else if !new_state.is_normalized then
    (sim, .error (.InvalidState
      ("`state` is not normalized, trace is " ++ toString new_state.trace)))
  else if !new_state.is_hermitian then
    (sim, .error (.InvalidState "`state` is not Hermitian"))
  else ({ sim with state := .ok new_state }, .ok ())

/-- Embeds `DensityMatrixSimulator::trace_change`. -/
def DensityMatrixSimulator.trace_change (sim : DensityMatrixSimulator) :
    Except Error ℚ :=
  match sim.state with
  | .error e => .error e
  | .ok st => .ok st.trace_change

/-- Embeds `DensityMatrixSimulator::set_trace`. -/
def DensityMatrixSimulator.set_trace (sim : DensityMatrixSimulator) (trace : ℚ) :
    DensityMatrixSimulator × Except Error Unit :=
  if trace < TOLERANCE ∨ trace - 1 > TOLERANCE then
    (sim, .error (.NotNormalized trace))
  else
    match sim.state with
    | .error e => (sim, .error e)
    | .ok st => ({ sim with state := .ok { st with trace_change := trace } }, .ok ())

/-- Fuel-driven floor of the base-2 logarithm (structural recursion so that it
reduces inside the kernel). -/
def log2fuel : ℕ → ℕ → ℕ
  | 0, _ => 0
  | fuel + 1, n => if n ≤ 1 then 0 else log2fuel fuel (n / 2) + 1

/-- Floor of the base-2 logarithm. -/
def floorLog2 (n : ℕ) : ℕ := log2fuel n n

/-- The row index of the kernel matrix selected by a flat state index: bit `t`
of the result is bit `axes[t]` of `i`. -/
def gatherIndex (axes : List ℕ) (i : ℕ) : ℕ :=
  (List.range axes.length).foldl
    (fun acc t => acc + (if Nat.testBit i (axes.getD t 0) then 2 ^ t else 0)) 0

/-- The flat state index obtained from `i` by overwriting, for every `t`, bit
`axes[t]` with bit `t` of the column index `c`. -/
def scatterIndex (axes : List ℕ) (i c : ℕ) : ℕ :=
  (List.range axes.length).foldl
    (fun acc t =>
      let a := axes.getD t 0
      let cleared := acc - (if Nat.testBit acc a then 2 ^ a else 0)
      cleared + (if Nat.testBit c t then 2 ^ a else 0))
    i

/-- Modelled from the spec: `apply_kernel` (`kernel.rs`, not among the provided
sources).  Spec §4.1: interpret the state as a tensor over binary axes; for
each assignment of the untouched axes gather the `2^|axes|` entries, multiply
by the matrix, scatter back; fail if the axes are out of range or duplicated or
if the matrix dimension is not `2^|axes|`.  Written pointwise: the new entry at
flat index `i` is the matrix row selected by the touched bits of `i` applied to
the entries ranging over the touched bits.  All simulator theorems below are
proved for every kernel; this concrete kernel is used to evaluate witnesses. -/
def applyKernelSpec : Kernel := fun data m axes =>
  let T := floorLog2 data.length
  let k := axes.length
  if data.length = 2 ^ T ∧ axes.Nodup ∧ (∀ a ∈ axes, a < T) ∧ m.length = 2 ^ k then
    .ok ((List.range data.length).map fun i =>
      csum ((List.range (2 ^ k)).map fun c =>
        Cq.mul (m.entry (gatherIndex axes i) c) (data.getD (scatterIndex axes i c) Cq.zero)))
  else .error .KernelFailure

/-- Modelled from the spec: the `StateVector` state (`state_vector_simulator.rs`,
not among the provided sources).  Spec §3: data of length `D = 2^N`, initial
`ψ = |0⟩`, `trace_change` starting at 1. -/
structure StateVector where
  dim : ℕ
  number_of_qubits : ℕ
  trace_change : ℚ
  data : ComplexVector
deriving DecidableEq, Repr

/-- Modelled from the spec: `StateVector::new` (spec §3): `data[0] = 1`, rest
zero, `trace_change = 1`. -/
def StateVector.new (number_of_qubits : ℕ) : StateVector :=
  let dim := 1 <<< number_of_qubits
  { dim, number_of_qubits, trace_change := 1,
    data := (List.range dim).map fun i => if i = 0 then Cq.one else Cq.zero }

/-- Modelled from the spec: the `StateVectorSimulator` driver
(`state_vector_simulator.rs`, not among the provided sources).  Spec §4.5: it
holds either a `StateVector` or a latched error, mirroring the density-matrix
simulator. -/
structure StateVectorSimulator where
  state : Except Error StateVector

deriving instance DecidableEq for StateVectorSimulator

/-- Modelled from the spec: `StateVectorSimulator::new` constructs the fresh
`|0⟩` state (spec §4.5). -/
def StateVectorSimulator.new (number_of_qubits : ℕ) : StateVectorSimulator :=
  { state := .ok (StateVector.new number_of_qubits) }

/-- The Python-facing constructor `DensityMatrixSimulator::new` of
`pip/src/noisy_simulator.rs` (lines 147-154): the `seed` parameter is declared
(`seed=42` by default) but marked `#[allow(unused_variables)]` and never used. -/
def PyDensityMatrixSimulator.new (number_of_qubits : ℕ) (seed : ℕ) :
    DensityMatrixSimulator :=
  DensityMatrixSimulator.new number_of_qubits

/-- The Python-facing constructor `StateVectorSimulator::new` of
`pip/src/noisy_simulator.rs` (lines 257-262): the `seed` parameter is likewise
unused. -/
def PyStateVectorSimulator.new (number_of_qubits : ℕ) (seed : ℕ) :
    StateVectorSimulator :=
  StateVectorSimulator.new number_of_qubits

/-- The 2×2 identity matrix. -/
def id2 : SquareMatrix := [[Cq.one, Cq.zero], [Cq.zero, Cq.one]]

/-- The 4×4 identity matrix. -/
def id4 : SquareMatrix :=
  [[Cq.one, Cq.zero, Cq.zero, Cq.zero],
   [Cq.zero, Cq.one, Cq.zero, Cq.zero],
   [Cq.zero, Cq.zero, Cq.one, Cq.zero],
   [Cq.zero, Cq.zero, Cq.zero, Cq.one]]

/-- The 2×2 zero matrix. -/
def zero2 : SquareMatrix := [[Cq.zero, Cq.zero], [Cq.zero, Cq.zero]]

/-- The 4×4 matrix `(1/2)·I`. -/
def half4 : SquareMatrix :=
  [[⟨1/2, 0⟩, Cq.zero, Cq.zero, Cq.zero],
   [Cq.zero, ⟨1/2, 0⟩, Cq.zero, Cq.zero],
   [Cq.zero, Cq.zero, ⟨1/2, 0⟩, Cq.zero],
   [Cq.zero, Cq.zero, Cq.zero, ⟨1/2, 0⟩]]

/-- The branch trace `τⱼ` of outcome `o`: the trace of a clone of the state
after applying the outcome's effect-matrix transpose through the kernel
(`tmp_state = self.state.clone(); apply_kernel(...); tmp_state.trace()`). -/
def branchTrace (k : Kernel) (st : DensityMatrix) (instrument : Instrument)
    (qubits : List ℕ) (o : ℕ) : Except Error ℚ :=
  match k st.data (instrument.operation o).effect_matrix_transpose qubits with
  | .error e => .error e
  | .ok d => .ok (DensityMatrix.trace { st with data := d })

/-- Written from the spec's words (claim C1, spec §4.4 step 2), to be compared
with the code's loop: "Iterate outcomes j = 0 … k−1.  For each: clone ρ, apply
the effect-matrix transpose via the kernel, let τⱼ = Tr.  Accumulate
`summed += τⱼ / τ_total`.  Record the last j with τⱼ ≥ ε and its τⱼ.  Break
when `summed > u`."  The result is the accumulated sum together with the
recorded last outcome/trace pair (`none` when no iterated outcome had
τⱼ ≥ ε). -/
def specSelect (tr : ℕ → Except Error ℚ) (total_effect_trace random_sample : ℚ) :
    List ℕ → ℚ → Option (ℕ × ℚ) → Except Error (ℚ × Option (ℕ × ℚ))
  | [], summed, best => .ok (summed, best)
  | o :: rest, summed, best =>
    if summed > random_sample then .ok (summed, best)
    else
      match tr o with
      | .error e => .error e
      | .ok t =>
        specSelect tr total_effect_trace random_sample rest
          (summed + t / total_effect_trace)
          (if t ≥ TOLERANCE then some (o, t) else best)

/-- Relation between the code loop's accumulator and the spec-side recorded
"last j with τⱼ ≥ ε": `none` corresponds to the accumulator still holding a
below-tolerance trace (the initial `0.0`), `some (o, t)` to the recorded pair. -/
def accRel (acc : SampleAcc) (best : Option (ℕ × ℚ)) : Prop :=
  match best with
  | none => acc.last_non_zero_trace < TOLERANCE
  | some (o, t) => acc.last_non_zero_trace_outcome = o ∧
      acc.last_non_zero_trace = t ∧ TOLERANCE ≤ t

/-! ### Concrete fixtures used by witnesses and counterexamples -/

/-- An operation whose operation matrix is the 4×4 identity and whose effect
transpose is the 2×2 identity (a 1-qubit identity channel). -/
def idOp : Operation := ⟨id4, id2⟩

/-- A single-outcome instrument made of `idOp`. -/
def idInstr : Instrument := ⟨[idOp], id2, id4⟩

/-- An instrument whose total effect transpose is the zero matrix: sampling it
on any state yields total branch mass 0. -/
def zeroInstr : Instrument := ⟨[], zero2, id4⟩

/-- An instrument with unit total effect but a single outcome of zero effect:
the sampling loop finds no outcome with branch trace ≥ ε. -/
def failInstr : Instrument := ⟨[⟨id4, zero2⟩], id2, id4⟩

/-- An operation whose operation matrix halves the state: the renormalization
trace of the resulting state is 1/2. -/
def halfOp : Operation := ⟨half4, id2⟩

/-- Raw 2×2 data with entry (0,1) = 1 but entry (1,0) = 0: unit trace but not
Hermitian. -/
def badData : ComplexVector := [Cq.one, Cq.one, Cq.zero, Cq.zero]

/-- A latched 1-qubit simulator (as produced by sampling `zeroInstr` on a
fresh simulator, see the C2 counterexample). -/
def simLatched : DensityMatrixSimulator := ⟨.error .ProbabilityZeroEvent, 2⟩

/-! ### Helper lemmas -/

theorem qabs_eq_abs (x : ℚ) : qabs x = |x| := by
  unfold qabs
  rcases lt_or_le x 0 with h | h
  · rw [if_pos h, abs_of_neg h]
  · rw [if_neg (not_lt.mpr h), abs_of_nonneg h]

theorem tolerance_pos : (0 : ℚ) < TOLERANCE := by norm_num [TOLERANCE]

theorem foldl_concat_id : ∀ (qs : List ℕ) (init : List ℕ),
    qs.foldl (fun acc id => acc.concat id) init = init ++ qs := by
  intro qs
  induction qs with
  | nil => intro init; simp
  | cons q rest ih =>
    intro init
    rw [List.foldl_cons, ih]
    simp

theorem foldl_concat_add (n : ℕ) : ∀ (qs : List ℕ) (init : List ℕ),
    qs.foldl (fun acc id => acc.concat (id + n)) init = init ++ qs.map (fun q => q + n) := by
  intro qs
  induction qs with
  | nil => intro init; simp
  | cons q rest ih =>
    intro init
    rw [List.foldl_cons, ih]
    simp

theorem qubitsExpanded_eq (qs : List ℕ) (n : ℕ) :
    qubitsExpanded qs n = qs ++ qs.map (fun q => q + n) := by
  unfold qubitsExpanded
  rw [foldl_concat_id, foldl_concat_add, List.nil_append]

theorem Cq.add_scale (r : ℚ) (a b : Cq) :
    Cq.add (Cq.scale r a) (Cq.scale r b) = Cq.scale r (Cq.add a b) := by
  simp only [Cq.add, Cq.scale, Cq.mk.injEq]
  constructor <;> ring

theorem Cq.scale_zero (r : ℚ) : Cq.scale r Cq.zero = Cq.zero := by
  simp [Cq.scale, Cq.zero]

theorem foldl_add_map_scale (r : ℚ) : ∀ (l : List Cq) (acc : Cq),
    (l.map (Cq.scale r)).foldl Cq.add (Cq.scale r acc) = Cq.scale r (l.foldl Cq.add acc) := by
  intro l
  induction l with
  | nil => intro acc; simp
  | cons x rest ih => intro acc; simp only [List.map_cons, List.foldl_cons, Cq.add_scale, ih]

theorem csum_map_scale (r : ℚ) (l : List Cq) :
    csum (l.map (Cq.scale r)) = Cq.scale r (csum l) := by
  unfold csum
  have h := foldl_add_map_scale r l Cq.zero
  rwa [Cq.scale_zero] at h

theorem getD_map_scale (r : ℚ) (l : List Cq) (n : ℕ) :
    (l.map (Cq.scale r)).getD n Cq.zero = Cq.scale r (l.getD n Cq.zero) := by
  simp only [List.getD_eq_getElem?_getD, List.getElem?_map]
  cases h : l[n]? with
  | none => simp [Cq.scale_zero]
  | some x => simp

theorem trace_map_scale (dm : DensityMatrix) (r : ℚ) :
    DensityMatrix.trace { dm with data := dm.data.map (Cq.scale r) } = dm.trace * r := by
  unfold DensityMatrix.trace
  simp only [getD_map_scale]
  have : ((List.range dm.dim).map fun idx =>
        Cq.scale r (dm.data.getD ((dm.dim + 1) * idx) Cq.zero)) =
      ((List.range dm.dim).map fun idx =>
        dm.data.getD ((dm.dim + 1) * idx) Cq.zero).map (Cq.scale r) := by
    simp [List.map_map, Function.comp]
  rw [this, csum_map_scale]
  simp [Cq.scale]

theorem trace_data_only (a b : DensityMatrix) (hdim : a.dim = b.dim)
    (hdata : a.data = b.data) : a.trace = b.trace := by
  unfold DensityMatrix.trace
  rw [hdim, hdata]

/-! ### Claim theorems -/

/-- Claim C8. `apply_operation_matrix` passes the kernel the doubled axis list
`[q₀, …, q_{k-1}, q₀+N, …, q_{k-1}+N]`: the `qubits_expanded` vector built by
its two loops is exactly the qubit list followed by the same list offset by
the number of qubits, and the kernel is invoked on it. -/
theorem apply_operation_matrix_doubled_axes (qs : List ℕ) (n : ℕ) (k : Kernel)
    (dm : DensityMatrix) (m : SquareMatrix) :
    qubitsExpanded qs n = qs ++ qs.map (fun q => q + n) ∧
    dm.apply_operation_matrix k m qs =
      (match k dm.data m (qs ++ qs.map (fun q => q + dm.number_of_qubits)) with
       | .error e => (dm, .error e)
       | .ok d => ({ dm with data := d }, .ok ())) := by
  refine ⟨qubitsExpanded_eq qs n, ?_⟩
  unfold DensityMatrix.apply_operation_matrix
  rw [qubitsExpanded_eq]

/-- Claim C10. The Python-facing constructors ignore their `seed` parameter:
two constructions with the same qubit count and different seeds yield
identical simulators (density-matrix and state-vector alike), so no
subsequent deterministic method can depend on the seed. -/
theorem py_constructors_ignore_seed (number_of_qubits s1 s2 : ℕ) :
    PyDensityMatrixSimulator.new number_of_qubits s1 =
      PyDensityMatrixSimulator.new number_of_qubits s2 ∧
    PyStateVectorSimulator.new number_of_qubits s1 =
      PyStateVectorSimulator.new number_of_qubits s2 :=
  ⟨rfl, rfl⟩

unseal Rat.add Rat.mul Rat.sub Rat.inv in
/-- Claim C9. `DensityMatrix::try_from` returns `Some` exactly when
`1 << number_of_qubits = dim` and the data length is `dim²`; it performs no
Hermiticity or trace validation, witnessed by the non-Hermitian unit-trace
`badData`, which `try_from` accepts and `set_state` then rejects with
`InvalidState`. -/
theorem try_from_structural_only :
    (∀ (dim number_of_qubits : ℕ) (trace_change : ℚ) (data : ComplexVector),
      (DensityMatrix.try_from dim number_of_qubits trace_change data).isSome = true ↔
        (1 <<< number_of_qubits = dim ∧ data.length = dim * dim)) ∧
    DensityMatrix.try_from 2 1 1 badData = some ⟨2, 1, 1, badData⟩ ∧
    DensityMatrix.is_hermitian ⟨2, 1, 1, badData⟩ = false ∧
    DensityMatrix.is_normalized ⟨2, 1, 1, badData⟩ = true ∧
    (DensityMatrixSimulator.new 1).set_state ⟨2, 1, 1, badData⟩ =
      (DensityMatrixSimulator.new 1, .error (.InvalidState "`state` is not Hermitian")) := by
  refine ⟨?_, by decide, by decide, by decide, by decide⟩
  intro d n tc data
  unfold DensityMatrix.try_from
  by_cases hc : 1 <<< n ≠ d ∨ data.length ≠ d * d
  · rw [if_pos hc]
    simp only [Option.isSome_none, Bool.false_eq_true, false_iff]
    tauto
  · rw [if_neg hc]
    simp only [Option.isSome_some, true_iff]
    push_neg at hc
    exact hc

/-- Claim C4. `renormalize_with_trace(τ)`: if `τ < ε` it fails with
`ProbabilityZeroEvent` leaving the matrix (data and `trace_change`)
unchanged; otherwise it succeeds, multiplies `trace_change` by `τ`, scales
every data entry by `1/τ`, and if `τ` was the actual trace the resulting
trace is 1. -/
theorem renormalize_with_trace_spec (dm : DensityMatrix) (τ : ℚ) :
    (τ < TOLERANCE → dm.renormalize_with_trace τ = (dm, .error .ProbabilityZeroEvent)) ∧
    (TOLERANCE ≤ τ →
      dm.renormalize_with_trace τ =
        ({ dm with trace_change := dm.trace_change * τ,
                   data := dm.data.map (Cq.scale (1 / τ)) }, .ok ()) ∧
      (dm.renormalize_with_trace τ).1.trace = dm.trace * (1 / τ) ∧
      (dm.trace = τ → (dm.renormalize_with_trace τ).1.trace = 1)) := by
  constructor
  · intro h
    unfold DensityMatrix.renormalize_with_trace
    rw [if_pos h]
  · intro h
    have hτ : τ ≠ 0 := by
      have := tolerance_pos
      intro h0
      rw [h0] at h
      linarith
    have hn : ¬ (τ < TOLERANCE) := not_lt.mpr h
    unfold DensityMatrix.renormalize_with_trace
    rw [if_neg hn]
    have htr : DensityMatrix.trace
        { dm with trace_change := dm.trace_change * τ,
                  data := dm.data.map (Cq.scale (1 / τ)) } = dm.trace * (1 / τ) := by
      rw [trace_data_only
        { dm with trace_change := dm.trace_change * τ,
                  data := dm.data.map (Cq.scale (1 / τ)) }
        { dm with data := dm.data.map (Cq.scale (1 / τ)) } rfl rfl]
      exact trace_map_scale dm (1 / τ)
    refine ⟨rfl, htr, ?_⟩
    intro heq
    rw [htr, heq, one_div, mul_inv_cancel₀ hτ]

unseal Rat.add Rat.mul Rat.sub Rat.inv in
/-- Witness for claim C4. Concrete instances discharging both branches: `τ = 0`
fails on the fresh 1-qubit matrix; `τ = 1/2` on a half-trace matrix succeeds
and renormalizes the trace to 1. -/
theorem renormalize_with_trace_spec_witness :
    ((0 : ℚ) < TOLERANCE ∧
      (DensityMatrix.new 1).renormalize_with_trace 0 =
        (DensityMatrix.new 1, .error .ProbabilityZeroEvent)) ∧
    (TOLERANCE ≤ mkRat 1 2 ∧
      DensityMatrix.trace ⟨2, 1, 1, [⟨mkRat 1 2, 0⟩, Cq.zero, Cq.zero, Cq.zero]⟩ = mkRat 1 2 ∧
      ((⟨2, 1, 1, [⟨mkRat 1 2, 0⟩, Cq.zero, Cq.zero, Cq.zero]⟩ :
          DensityMatrix).renormalize_with_trace (mkRat 1 2)).1.trace = 1) :=
  ⟨⟨tolerance_pos, (renormalize_with_trace_spec (DensityMatrix.new 1) 0).1 (by decide)⟩,
   ⟨by decide, by decide,
    ((renormalize_with_trace_spec ⟨2, 1, 1, [⟨mkRat 1 2, 0⟩, Cq.zero, Cq.zero, Cq.zero]⟩
        (mkRat 1 2)).2 (by decide)).2.2 (by decide)⟩⟩

theorem apply_operation_matrix_ok (k : Kernel) (dm : DensityMatrix)
    (m : SquareMatrix) (qs : List ℕ) (st1 : DensityMatrix)
    (h : dm.apply_operation_matrix k m qs = (st1, .ok ())) :
    ∃ d, k dm.data m (qubitsExpanded qs dm.number_of_qubits) = .ok d ∧
      st1 = { dm with data := d } := by
  unfold DensityMatrix.apply_operation_matrix at h
  cases hk : k dm.data m (qubitsExpanded qs dm.number_of_qubits) with
  | error e => rw [hk] at h; simp at h
  | ok d =>
    rw [hk] at h
    exact ⟨d, rfl, ((Prod.mk.injEq _ _ _ _).mp h).1.symm⟩

theorem renormalize_with_trace_ok (dm : DensityMatrix) (τ : ℚ) (st2 : DensityMatrix)
    (h : dm.renormalize_with_trace τ = (st2, .ok ())) :
    TOLERANCE ≤ τ ∧
      st2 = { dm with trace_change := dm.trace_change * τ,
                      data := dm.data.map (Cq.scale (1 / τ)) } := by
  unfold DensityMatrix.renormalize_with_trace at h
  by_cases hτ : τ < TOLERANCE
  · rw [if_pos hτ] at h; simp at h
  · rw [if_neg hτ] at h
    exact ⟨not_lt.mp hτ, ((Prod.mk.injEq _ _ _ _).mp h).1.symm⟩

theorem sample_ok_inversion (k : Kernel) (sim : DensityMatrixSimulator)
    (instr : Instrument) (qs : List ℕ) (u : ℚ) (sim' : DensityMatrixSimulator) (j : ℕ)
    (h : sim.sample_instrument_with_distribution k instr qs u = (sim', .ok j)) :
    ∃ st d0 acc,
      sim.state = .ok st ∧
      k st.data instr.total_effect_transposed qs = .ok d0 ∧
      TOLERANCE ≤ DensityMatrix.trace { st with data := d0 } ∧
      sampleLoop k st instr qs (DensityMatrix.trace { st with data := d0 }) u
        (List.range instr.num_operations) ⟨0, 0, 0⟩ = .ok acc ∧
      ¬ (acc.summed_probability + TOLERANCE ≤ u ∨
          acc.last_non_zero_trace < TOLERANCE) ∧
      j = acc.last_non_zero_trace_outcome ∧
      ∃ st2, st.apply_operation_matrix k (instr.operation j).matrix qs = (st2, .ok ()) ∧
        ∃ st3, st2.renormalize_with_trace acc.last_non_zero_trace = (st3, .ok ()) ∧
          sim' = { sim with state := .ok st3 } := by
  unfold DensityMatrixSimulator.sample_instrument_with_distribution at h
  split at h
  · simp at h
  · rename_i st hst
    split at h
    · simp at h
    · rename_i d0 hk
      split at h
      · simp [handleError] at h
      · rename_i htot
        split at h
        · simp at h
        · rename_i acc hloop
          split at h
          · simp [handleError] at h
          · rename_i hfail
            split at h
            · simp [handleError] at h
            · rename_i st2 a hm
              split at h
              · simp [handleError] at h
              · rename_i st3 b hr
                obtain ⟨hsim', hj⟩ := (Prod.mk.injEq _ _ _ _).mp h
                have hj' : j = acc.last_non_zero_trace_outcome := by
                  cases hj
                  rfl
                refine ⟨st, d0, acc, hst, hk, not_lt.mp htot, hloop, hfail, hj',
                  st2, ?_, st3, ?_, hsim'.symm⟩
                · rw [← hj'] at hm
                  exact hm
                · exact hr

/-- Claim C7, amended.  `set_trace(t)` on a non-latched simulator succeeds and
sets `trace_change` to `t` exactly when `ε ≤ t ≤ 1 + ε` (not `0 < t`: small
positive values below the tolerance are rejected); for `t` outside that range
it returns `NotNormalized(t)` and leaves the simulator unchanged. -/
theorem set_trace_range_spec (sim : DensityMatrixSimulator) (st : DensityMatrix)
    (t : ℚ) (h : sim.state = .ok st) :
    (TOLERANCE ≤ t → t ≤ 1 + TOLERANCE →
      sim.set_trace t =
        ({ sim with state := .ok { st with trace_change := t } }, .ok ())) ∧
    ((t < TOLERANCE ∨ 1 + TOLERANCE < t) →
      sim.set_trace t = (sim, .error (.NotNormalized t))) := by
  unfold DensityMatrixSimulator.set_trace
  constructor
  · intro h1 h2
    have hc : ¬ (t < TOLERANCE ∨ t - 1 > TOLERANCE) := by
      push_neg
      exact ⟨h1, by linarith⟩
    rw [if_neg hc, h]
  · intro h1
    have hc : t < TOLERANCE ∨ t - 1 > TOLERANCE := by
      rcases h1 with h1 | h1
      · exact Or.inl h1
      · exact Or.inr (by linarith)
    rw [if_pos hc]

unseal Rat.add Rat.mul Rat.sub Rat.inv in
/-- Counterexample for claim C7.  The value `t = 1/2·10⁻¹²` satisfies
`0 < t ≤ 1 + ε`, so the claim says `set_trace(t)` succeeds; but the code
rejects every `t < ε` with `NotNormalized(t)`. -/
theorem set_trace_small_positive_counterexample :
    (0 : ℚ) < mkRat 1 2000000000000 ∧
    (mkRat 1 2000000000000 : ℚ) ≤ 1 + TOLERANCE ∧
    (DensityMatrixSimulator.new 1).set_trace (mkRat 1 2000000000000) =
      (DensityMatrixSimulator.new 1,
        .error (.NotNormalized (mkRat 1 2000000000000))) := by
  refine ⟨by decide, by decide, by decide⟩

unseal Rat.add Rat.mul Rat.sub Rat.inv in
/-- Witness for claim C7.  Both branches at concrete inputs on a fresh 1-qubit
simulator: `t = 1/2` (in range) succeeds and sets `trace_change`; `t = 2`
(out of range) is rejected with `NotNormalized(2)`. -/
theorem set_trace_range_spec_witness :
    ((DensityMatrixSimulator.new 1).state = .ok (DensityMatrix.new 1) ∧
      (DensityMatrixSimulator.new 1).set_trace (mkRat 1 2) =
        ({ DensityMatrixSimulator.new 1 with
            state := .ok { DensityMatrix.new 1 with trace_change := mkRat 1 2 } },
          .ok ())) ∧
    (DensityMatrixSimulator.new 1).set_trace 2 =
      (DensityMatrixSimulator.new 1, .error (.NotNormalized 2)) :=
  ⟨⟨rfl,
    (set_trace_range_spec (DensityMatrixSimulator.new 1) (DensityMatrix.new 1)
      (mkRat 1 2) rfl).1 (by decide) (by decide)⟩,
   (set_trace_range_spec (DensityMatrixSimulator.new 1) (DensityMatrix.new 1)
      2 rfl).2 (Or.inr (by decide))⟩

theorem is_hermitian_iff (dm : DensityMatrix) :
    dm.is_hermitian = true ↔ ∀ r, r < dm.dim → ∀ c, c < dm.dim →
      qabs ((dm.data.getD (dm.dim * r + c) Cq.zero).re -
        (dm.data.getD (dm.dim * c + r) Cq.zero).re) ≤ TOLERANCE ∧
      qabs ((dm.data.getD (dm.dim * r + c) Cq.zero).im +
        (dm.data.getD (dm.dim * c + r) Cq.zero).im) ≤ TOLERANCE := by
  unfold DensityMatrix.is_hermitian
  simp only [List.all_eq_true, List.mem_range, Bool.not_eq_true', Bool.or_eq_false_iff,
    decide_eq_false_iff_not, not_lt]

/-- Claim C5.  `set_state(ρ')` (on any simulator, latched or not) rejects with
`InvalidState` — leaving the simulator, including any latched error,
unchanged — exactly the states whose dimension differs from the recorded one,
whose trace is not 1 within `ε`, or that are not Hermitian within `ε` (entry
(r,c) must match the conjugate of entry (c,r) within `ε` in both components);
otherwise it replaces the state with `ρ'`, clearing any latched error. -/
theorem set_state_validation_spec (sim : DensityMatrixSimulator) (ρ : DensityMatrix) :
    (ρ.is_hermitian = true ↔ ∀ r, r < ρ.dim → ∀ c, c < ρ.dim →
      qabs ((ρ.data.getD (ρ.dim * r + c) Cq.zero).re -
        (ρ.data.getD (ρ.dim * c + r) Cq.zero).re) ≤ TOLERANCE ∧
      qabs ((ρ.data.getD (ρ.dim * r + c) Cq.zero).im +
        (ρ.data.getD (ρ.dim * c + r) Cq.zero).im) ≤ TOLERANCE) ∧
    (ρ.is_normalized = true ↔ qabs (ρ.trace - 1) ≤ TOLERANCE) ∧
    ((sim.dim ≠ ρ.dim ∨ ρ.is_normalized = false ∨ ρ.is_hermitian = false) →
      ∃ msg, sim.set_state ρ = (sim, .error (.InvalidState msg))) ∧
    (sim.dim = ρ.dim → ρ.is_normalized = true → ρ.is_hermitian = true →
      sim.set_state ρ = ({ sim with state := .ok ρ }, .ok ())) := by
  refine ⟨is_hermitian_iff ρ, by simp [DensityMatrix.is_normalized], ?_, ?_⟩
  · intro h
    unfold DensityMatrixSimulator.set_state
    rcases h with h | h | h
    · exact ⟨_, by rw [if_pos h]⟩
    · by_cases hd : sim.dim ≠ ρ.dim
      · exact ⟨_, by rw [if_pos hd]⟩
      · exact ⟨_, by rw [if_neg hd, if_pos (by simp [h])]⟩
    · by_cases hd : sim.dim ≠ ρ.dim
      · exact ⟨_, by rw [if_pos hd]⟩
      · by_cases hn : (!ρ.is_normalized) = true
        · exact ⟨_, by rw [if_neg hd, if_pos hn]⟩
        · exact ⟨_, by rw [if_neg hd, if_neg hn, if_pos (by simp [h])]⟩
  · intro hd hn hh
    unfold DensityMatrixSimulator.set_state
    rw [if_neg (by simp [hd]), if_neg (by simp [hn]), if_neg (by simp [hh])]

unseal Rat.add Rat.mul Rat.sub Rat.inv in
/-- Witness for claim C5.  Concrete instances: a 2-qubit simulator rejects a
1-qubit (dimension 2) state; a 1-qubit simulator rejects the non-Hermitian
`badData` state; a 1-qubit simulator accepts the fresh density matrix,
replacing its state. -/
theorem set_state_validation_spec_witness :
    (∃ msg, (DensityMatrixSimulator.new 2).set_state ⟨2, 1, 1, badData⟩ =
      (DensityMatrixSimulator.new 2, .error (.InvalidState msg))) ∧
    (∃ msg, (DensityMatrixSimulator.new 1).set_state ⟨2, 1, 1, badData⟩ =
      (DensityMatrixSimulator.new 1, .error (.InvalidState msg))) ∧
    (DensityMatrixSimulator.new 1).set_state (DensityMatrix.new 1) =
      ({ DensityMatrixSimulator.new 1 with state := .ok (DensityMatrix.new 1) },
        .ok ()) :=
  ⟨(set_state_validation_spec (DensityMatrixSimulator.new 2) ⟨2, 1, 1, badData⟩).2.2.1
      (Or.inl (by decide)),
   (set_state_validation_spec (DensityMatrixSimulator.new 1) ⟨2, 1, 1, badData⟩).2.2.1
      (Or.inr (Or.inr (by decide))),
   (set_state_validation_spec (DensityMatrixSimulator.new 1) (DensityMatrix.new 1)).2.2.2
      (by decide) (by decide) (by decide)⟩

theorem apply_operation_ok_inversion (k : Kernel) (sim : DensityMatrixSimulator)
    (op : Operation) (qs : List ℕ) (sim' : DensityMatrixSimulator)
    (h : sim.apply_operation k op qs = (sim', .ok ())) :
    ∃ st st1 st2, sim.state = .ok st ∧
      st.apply_operation_matrix k op.matrix qs = (st1, .ok ()) ∧
      st1.renormalize = (st2, .ok ()) ∧ sim' = { sim with state := .ok st2 } := by
  unfold DensityMatrixSimulator.apply_operation at h
  split at h
  · simp at h
  · rename_i st hst
    split at h
    · simp at h
    · rename_i st1 a hm
      split at h
      · simp [handleError] at h
      · rename_i st2 b hr
        obtain ⟨hsim', -⟩ := (Prod.mk.injEq _ _ _ _).mp h
        exact ⟨st, st1, st2, hst, hm, hr, hsim'.symm⟩

theorem apply_instrument_ok_inversion (k : Kernel) (sim : DensityMatrixSimulator)
    (instr : Instrument) (qs : List ℕ) (sim' : DensityMatrixSimulator)
    (h : sim.apply_instrument k instr qs = (sim', .ok ())) :
    ∃ st st1 st2, sim.state = .ok st ∧
      st.apply_operation_matrix k instr.non_selective_operation_matrix qs = (st1, .ok ()) ∧
      st1.renormalize = (st2, .ok ()) ∧ sim' = { sim with state := .ok st2 } := by
  unfold DensityMatrixSimulator.apply_instrument at h
  split at h
  · simp at h
  · rename_i st hst
    split at h
    · simp at h
    · rename_i st1 a hm
      split at h
      · simp [handleError] at h
      · rename_i st2 b hr
        obtain ⟨hsim', -⟩ := (Prod.mk.injEq _ _ _ _).mp h
        exact ⟨st, st1, st2, hst, hm, hr, hsim'.symm⟩

/-- Claim C6, amended.  Across successful `apply_operation`,
`apply_instrument` and `sample_instrument_with_distribution` calls,
`trace_change` is not monotonically non-decreasing; instead each successful
call multiplies it by that step's renormalization trace `τ ≥ ε` (so it is
non-increasing whenever every `τ ≤ 1`, and can strictly decrease). -/
theorem trace_change_multiplied_by_branch_trace (k : Kernel)
    (sim sim' : DensityMatrixSimulator) (op : Operation) (instr : Instrument)
    (qs : List ℕ) (u : ℚ) (j : ℕ) :
    (sim.apply_operation k op qs = (sim', .ok ()) →
      ∃ tc τ, sim.trace_change = .ok tc ∧ TOLERANCE ≤ τ ∧
        sim'.trace_change = .ok (tc * τ)) ∧
    (sim.apply_instrument k instr qs = (sim', .ok ()) →
      ∃ tc τ, sim.trace_change = .ok tc ∧ TOLERANCE ≤ τ ∧
        sim'.trace_change = .ok (tc * τ)) ∧
    (sim.sample_instrument_with_distribution k instr qs u = (sim', .ok j) →
      ∃ tc τ, sim.trace_change = .ok tc ∧ TOLERANCE ≤ τ ∧
        sim'.trace_change = .ok (tc * τ)) := by
  refine ⟨?_, ?_, ?_⟩
  · intro h
    obtain ⟨st, st1, st2, hst, hm, hr, hsim'⟩ :=
      apply_operation_ok_inversion k sim op qs sim' h
    obtain ⟨d, -, hst1⟩ := apply_operation_matrix_ok k st op.matrix qs st1 hm
    obtain ⟨hτ, hst2⟩ := renormalize_with_trace_ok st1 st1.trace st2 hr
    refine ⟨st.trace_change, st1.trace, ?_, hτ, ?_⟩
    · unfold DensityMatrixSimulator.trace_change
      rw [hst]
    · unfold DensityMatrixSimulator.trace_change
      rw [hsim']
      rw [hst2, hst1]
  · intro h
    obtain ⟨st, st1, st2, hst, hm, hr, hsim'⟩ :=
      apply_instrument_ok_inversion k sim instr qs sim' h
    obtain ⟨d, -, hst1⟩ :=
      apply_operation_matrix_ok k st instr.non_selective_operation_matrix qs st1 hm
    obtain ⟨hτ, hst2⟩ := renormalize_with_trace_ok st1 st1.trace st2 hr
    refine ⟨st.trace_change, st1.trace, ?_, hτ, ?_⟩
    · unfold DensityMatrixSimulator.trace_change
      rw [hst]
    · unfold DensityMatrixSimulator.trace_change
      rw [hsim']
      rw [hst2, hst1]
  · intro h
    obtain ⟨st, d0, acc, hst, hk, htot, hloop, hfail, hj, st2, hm, st3, hr, hsim'⟩ :=
      sample_ok_inversion k sim instr qs u sim' j h
    obtain ⟨d, -, hst2⟩ := apply_operation_matrix_ok k st (instr.operation j).matrix qs st2 hm
    obtain ⟨hτ, hst3⟩ := renormalize_with_trace_ok st2 acc.last_non_zero_trace st3 hr
    refine ⟨st.trace_change, acc.last_non_zero_trace, ?_, hτ, ?_⟩
    · unfold DensityMatrixSimulator.trace_change
      rw [hst]
    · unfold DensityMatrixSimulator.trace_change
      rw [hsim']
      rw [hst3, hst2]

unseal Rat.add Rat.mul Rat.sub Rat.inv in
/-- Counterexample for claim C6.  One successful `apply_operation` on a fresh
1-qubit simulator (with the spec-modelled kernel and an operation matrix
`(1/2)·I`) takes `trace_change` from 1 to 1/2: strictly decreasing, so the
sequence of `trace_change` values is not monotonically non-decreasing. -/
theorem trace_change_strictly_decreases_counterexample :
    (DensityMatrixSimulator.new 1).trace_change = .ok 1 ∧
    ((DensityMatrixSimulator.new 1).apply_operation applyKernelSpec halfOp [0]).2 =
      .ok () ∧
    ((DensityMatrixSimulator.new 1).apply_operation
        applyKernelSpec halfOp [0]).1.trace_change = .ok (mkRat 1 2) ∧
    ¬ ((1 : ℚ) ≤ mkRat 1 2) := by
  refine ⟨by decide, by decide, by decide, by decide⟩

unseal Rat.add Rat.mul Rat.sub Rat.inv in
/-- Witness for claim C6.  Concrete successful calls (identity channel,
identity instrument, identity-instrument sampling with `u = 1/2`) on the fresh
1-qubit simulator, discharging the hypotheses of all three conjuncts. -/
theorem trace_change_multiplied_by_branch_trace_witness :
    (∃ tc τ, (DensityMatrixSimulator.new 1).trace_change = .ok tc ∧ TOLERANCE ≤ τ ∧
      (DensityMatrixSimulator.new 1).trace_change = .ok (tc * τ)) ∧
    (∃ tc τ, (DensityMatrixSimulator.new 1).trace_change = .ok tc ∧ TOLERANCE ≤ τ ∧
      (DensityMatrixSimulator.new 1).trace_change = .ok (tc * τ)) :=
  ⟨(trace_change_multiplied_by_branch_trace applyKernelSpec
      (DensityMatrixSimulator.new 1) (DensityMatrixSimulator.new 1)
      idOp idInstr [0] 0 0).1 (by decide),
   (trace_change_multiplied_by_branch_trace applyKernelSpec
      (DensityMatrixSimulator.new 1) (DensityMatrixSimulator.new 1)
      idOp idInstr [0] (mkRat 1 2) 0).2.2 (by decide)⟩

theorem set_state_accepts (sim : DensityMatrixSimulator) (ρ : DensityMatrix)
    (hd : sim.dim = ρ.dim) (hn : ρ.is_normalized = true) (hh : ρ.is_hermitian = true) :
    sim.set_state ρ = ({ sim with state := .ok ρ }, .ok ()) := by
  unfold DensityMatrixSimulator.set_state
  rw [if_neg (by simp [hd]), if_neg (by simp [hn]), if_neg (by simp [hh])]

/-- Claim C2, amended.  Once an error is latched (`state = Err(e)`), every
call that reaches the state — the mutating methods, `state()`,
`trace_change()`, and `set_trace(t)` with `t` in `[ε, 1+ε]` — returns that
same error without modifying the simulator.  `set_trace` with an out-of-range
`t` instead returns `NotNormalized(t)` (its range check precedes the state
access), still without modifying the simulator; and a successful `set_state`
is the only way to clear the latch, replacing the state. -/
theorem latched_simulator_behavior (k : Kernel) (sim : DensityMatrixSimulator)
    (e : Error) (op : Operation) (instr : Instrument) (qs : List ℕ) (u t : ℚ)
    (ρ : DensityMatrix) (h : sim.state = .error e) :
    sim.state = .error e ∧
    sim.apply_operation k op qs = (sim, .error e) ∧
    sim.apply_instrument k instr qs = (sim, .error e) ∧
    sim.sample_instrument k instr qs u = (sim, .error e) ∧
    sim.sample_instrument_with_distribution k instr qs u = (sim, .error e) ∧
    sim.trace_change = .error e ∧
    (TOLERANCE ≤ t → t ≤ 1 + TOLERANCE → sim.set_trace t = (sim, .error e)) ∧
    ((t < TOLERANCE ∨ 1 + TOLERANCE < t) →
      sim.set_trace t = (sim, .error (.NotNormalized t))) ∧
    (sim.dim = ρ.dim → ρ.is_normalized = true → ρ.is_hermitian = true →
      sim.set_state ρ = ({ sim with state := .ok ρ }, .ok ())) := by
  refine ⟨h, ?_, ?_, ?_, ?_, ?_, ?_, ?_, set_state_accepts sim ρ⟩
  · unfold DensityMatrixSimulator.apply_operation
    rw [h]
  · unfold DensityMatrixSimulator.apply_instrument
    rw [h]
  · unfold DensityMatrixSimulator.sample_instrument
      DensityMatrixSimulator.sample_instrument_with_distribution
    rw [h]
  · unfold DensityMatrixSimulator.sample_instrument_with_distribution
    rw [h]
  · unfold DensityMatrixSimulator.trace_change
    rw [h]
  · intro h1 h2
    unfold DensityMatrixSimulator.set_trace
    have hc : ¬ (t < TOLERANCE ∨ t - 1 > TOLERANCE) := by
      push_neg
      exact ⟨h1, by linarith⟩
    rw [if_neg hc, h]
  · intro h1
    unfold DensityMatrixSimulator.set_trace
    have hc : t < TOLERANCE ∨ t - 1 > TOLERANCE := by
      rcases h1 with h1 | h1
      · exact Or.inl h1
      · exact Or.inr (by linarith)
    rw [if_pos hc]

unseal Rat.add Rat.mul Rat.sub Rat.inv in
/-- Counterexample for claim C2.  Sampling the zero-mass instrument on a fresh
1-qubit simulator latches `ProbabilityZeroEvent`; the claim says every
subsequent `set_trace` call returns that same error, but `set_trace(2)` on the
latched simulator returns `NotNormalized(2)` instead (the range check runs
before the state is consulted). -/
theorem latched_set_trace_out_of_range_counterexample :
    (DensityMatrixSimulator.new 1).sample_instrument_with_distribution applyKernelSpec
        zeroInstr [0] (mkRat 1 2) = (simLatched, .error .ProbabilityZeroEvent) ∧
    simLatched.state = .error .ProbabilityZeroEvent ∧
    simLatched.set_trace 2 = (simLatched, .error (.NotNormalized 2)) ∧
    Error.NotNormalized 2 ≠ Error.ProbabilityZeroEvent := by
  refine ⟨by decide, by decide, by decide, by decide⟩

unseal Rat.add Rat.mul Rat.sub Rat.inv in
/-- Witness for claim C2.  The latched simulator at concrete arguments: the
hypothesis `state = Err(ProbabilityZeroEvent)` holds, the mutating methods and
`trace_change` return the latched error unchanged, in-range `set_trace(1)`
returns the latched error, and a valid `set_state` clears the latch. -/
theorem latched_simulator_behavior_witness :
    simLatched.state = .error .ProbabilityZeroEvent ∧
    simLatched.apply_operation applyKernelSpec idOp [0] =
      (simLatched, .error .ProbabilityZeroEvent) ∧
    simLatched.sample_instrument_with_distribution applyKernelSpec idInstr [0]
      (mkRat 1 2) = (simLatched, .error .ProbabilityZeroEvent) ∧
    simLatched.trace_change = .error .ProbabilityZeroEvent ∧
    simLatched.set_trace 1 = (simLatched, .error .ProbabilityZeroEvent) ∧
    simLatched.set_state (DensityMatrix.new 1) =
      ({ simLatched with state := .ok (DensityMatrix.new 1) }, .ok ()) := by
  have h := latched_simulator_behavior applyKernelSpec simLatched
    .ProbabilityZeroEvent idOp idInstr [0] (mkRat 1 2) 1 (DensityMatrix.new 1) rfl
  exact ⟨h.1, h.2.1, h.2.2.2.2.1, h.2.2.2.2.2.1,
    h.2.2.2.2.2.2.1 (by decide) (by decide),
    h.2.2.2.2.2.2.2.2 (by decide) (by decide) (by decide)⟩

/-- Claim C3.  In `sample_instrument_with_distribution` on a non-latched
simulator: if the trace of the cloned state after applying the instrument's
total-effect transpose is `< ε`, the method latches and returns
`ProbabilityZeroEvent`; and after the outcome loop, if the summed probability
plus `ε` is `≤` the random sample, or the recorded last non-zero branch trace
is `< ε`, the method latches and returns
`FailedToSampleInstrumentOutcome`. -/
theorem sample_with_distribution_latching_errors (k : Kernel)
    (sim : DensityMatrixSimulator) (st : DensityMatrix) (instr : Instrument)
    (qs : List ℕ) (u : ℚ) (d0 : ComplexVector) (acc : SampleAcc)
    (hst : sim.state = .ok st)
    (hk : k st.data instr.total_effect_transposed qs = .ok d0) :
    (DensityMatrix.trace { st with data := d0 } < TOLERANCE →
      sim.sample_instrument_with_distribution k instr qs u =
        ({ sim with state := .error .ProbabilityZeroEvent },
          .error .ProbabilityZeroEvent)) ∧
    (TOLERANCE ≤ DensityMatrix.trace { st with data := d0 } →
      sampleLoop k st instr qs (DensityMatrix.trace { st with data := d0 }) u
        (List.range instr.num_operations) ⟨0, 0, 0⟩ = .ok acc →
      (acc.summed_probability + TOLERANCE ≤ u ∨
        acc.last_non_zero_trace < TOLERANCE) →
      sim.sample_instrument_with_distribution k instr qs u =
        ({ sim with state := .error .FailedToSampleInstrumentOutcome },
          .error .FailedToSampleInstrumentOutcome)) := by
  constructor
  · intro htot
    simp only [DensityMatrixSimulator.sample_instrument_with_distribution, hst, hk]
    rw [if_pos htot]
    rfl
  · intro htot hloop hfail
    simp only [DensityMatrixSimulator.sample_instrument_with_distribution, hst, hk]
    rw [if_neg (not_lt.mpr htot), hloop]
    simp only []
    rw [if_pos hfail]
    rfl

unseal Rat.add Rat.mul Rat.sub Rat.inv in
/-- Witness for claim C3.  Both latching branches at concrete inputs on the
fresh 1-qubit simulator: the zero-mass instrument trips the `τ_total < ε`
branch; `failInstr` (unit total effect, one zero-effect outcome) passes the
total check but leaves the loop with zero summed probability and zero recorded
trace, tripping the post-loop check. -/
theorem sample_with_distribution_latching_errors_witness :
    (applyKernelSpec (DensityMatrix.new 1).data zeroInstr.total_effect_transposed [0] =
        .ok [Cq.zero, Cq.zero, Cq.zero, Cq.zero] ∧
      DensityMatrix.trace { DensityMatrix.new 1 with
        data := [Cq.zero, Cq.zero, Cq.zero, Cq.zero] } < TOLERANCE ∧
      (DensityMatrixSimulator.new 1).sample_instrument_with_distribution applyKernelSpec
          zeroInstr [0] (mkRat 1 2) =
        ({ DensityMatrixSimulator.new 1 with state := .error .ProbabilityZeroEvent },
          .error .ProbabilityZeroEvent)) ∧
    (applyKernelSpec (DensityMatrix.new 1).data failInstr.total_effect_transposed [0] =
        .ok [Cq.one, Cq.zero, Cq.zero, Cq.zero] ∧
      (DensityMatrixSimulator.new 1).sample_instrument_with_distribution applyKernelSpec
          failInstr [0] (mkRat 1 2) =
        ({ DensityMatrixSimulator.new 1 with
            state := .error .FailedToSampleInstrumentOutcome },
          .error .FailedToSampleInstrumentOutcome)) :=
  ⟨⟨by decide, by decide,
    (sample_with_distribution_latching_errors applyKernelSpec
      (DensityMatrixSimulator.new 1) (DensityMatrix.new 1) zeroInstr [0] (mkRat 1 2)
      [Cq.zero, Cq.zero, Cq.zero, Cq.zero] ⟨0, 0, 0⟩ rfl (by decide)).1 (by decide)⟩,
   ⟨by decide,
    (sample_with_distribution_latching_errors applyKernelSpec
      (DensityMatrixSimulator.new 1) (DensityMatrix.new 1) failInstr [0] (mkRat 1 2)
      [Cq.one, Cq.zero, Cq.zero, Cq.zero] ⟨0, 0, 0⟩ rfl (by decide)).2
      (by decide) (by decide) (by decide)⟩⟩

theorem sampleLoop_toSpec (k : Kernel) (st : DensityMatrix) (instr : Instrument)
    (qs : List ℕ) (τtot u : ℚ) :
    ∀ (outs : List ℕ) (acc : SampleAcc) (best : Option (ℕ × ℚ)), accRel acc best →
      ∀ acc', sampleLoop k st instr qs τtot u outs acc = .ok acc' →
        ∃ best', specSelect (branchTrace k st instr qs) τtot u outs
            acc.summed_probability best = .ok (acc'.summed_probability, best') ∧
          accRel acc' best' := by
  intro outs
  induction outs with
  | nil =>
    intro acc best hrel acc' h
    simp only [sampleLoop] at h
    obtain rfl : acc = acc' := by
      injection h
    exact ⟨best, rfl, hrel⟩
  | cons o rest ih =>
    intro acc best hrel acc' h
    rw [sampleLoop] at h
    rw [specSelect]
    by_cases hb : acc.summed_probability > u
    · rw [if_pos hb] at h
      rw [if_pos hb]
      obtain rfl : acc = acc' := by
        injection h
      exact ⟨best, rfl, hrel⟩
    · rw [if_neg hb] at h
      rw [if_neg hb]
      cases hk2 : k st.data (instr.operation o).effect_matrix_transpose qs with
      | error e =>
        rw [hk2] at h
        simp at h
      | ok d =>
        rw [hk2] at h
        simp only [] at h
        simp only [branchTrace, hk2]
        by_cases hge : DensityMatrix.trace { st with data := d } ≥ TOLERANCE
        · rw [if_pos hge] at h
          rw [if_pos hge]
          exact ih ⟨o, DensityMatrix.trace { st with data := d },
            acc.summed_probability +
              DensityMatrix.trace { st with data := d } / τtot⟩
            (some (o, DensityMatrix.trace { st with data := d }))
            ⟨rfl, rfl, hge⟩ acc' h
        · rw [if_neg hge] at h
          rw [if_neg hge]
          have hrel' : accRel ⟨acc.last_non_zero_trace_outcome, acc.last_non_zero_trace,
              acc.summed_probability +
                DensityMatrix.trace { st with data := d } / τtot⟩ best := by
            unfold accRel at hrel ⊢
            cases best with
            | none => exact hrel
            | some p => exact hrel
          exact ih _ best hrel' acc' h

/-- Claim C1.  Whenever `sample_instrument_with_distribution` returns
`Ok(j*)` on a non-latched simulator, `j*` is exactly the outcome selected by
the spec's procedure (`specSelect`): the last outcome `j`, among those
iterated before the cumulative sum of `τⱼ/τ_total` exceeds `u`, whose branch
trace `τⱼ` (trace after applying that outcome's effect-matrix transpose via
the kernel) is `≥ ε` — and the simulator then applies operation `j*`'s
operation matrix to the state and renormalizes with the recorded `τⱼ*` as the
pre-computed trace. -/
theorem sample_with_distribution_selects_last (k : Kernel)
    (sim sim' : DensityMatrixSimulator) (instr : Instrument) (qs : List ℕ)
    (u : ℚ) (j : ℕ)
    (h : sim.sample_instrument_with_distribution k instr qs u = (sim', .ok j)) :
    ∃ st d0 s t,
      sim.state = .ok st ∧
      k st.data instr.total_effect_transposed qs = .ok d0 ∧
      specSelect (branchTrace k st instr qs)
        (DensityMatrix.trace { st with data := d0 }) u
        (List.range instr.num_operations) 0 none = .ok (s, some (j, t)) ∧
      TOLERANCE ≤ t ∧
      ∃ st2, st.apply_operation_matrix k (instr.operation j).matrix qs = (st2, .ok ()) ∧
        ∃ st3, st2.renormalize_with_trace t = (st3, .ok ()) ∧
          sim' = { sim with state := .ok st3 } := by
  obtain ⟨st, d0, acc, hst, hk, htot, hloop, hfail, hj, st2, hm, st3, hr, hsim'⟩ :=
    sample_ok_inversion k sim instr qs u sim' j h
  have h0 : accRel ⟨0, 0, 0⟩ none := tolerance_pos
  obtain ⟨best', hspec, hrel⟩ := sampleLoop_toSpec k st instr qs
    (DensityMatrix.trace { st with data := d0 }) u
    (List.range instr.num_operations) ⟨0, 0, 0⟩ none h0 acc hloop
  push_neg at hfail
  cases best' with
  | none =>
    exact absurd hrel (not_lt.mpr hfail.2)
  | some p =>
    obtain ⟨o, tval⟩ := p
    obtain ⟨ho, ht, htol⟩ := hrel
    refine ⟨st, d0, acc.summed_probability, tval, hst, hk, ?_, htol, st2, hm, st3, ?_,
      hsim'⟩
    · rw [hj, ho]
      exact hspec
    · rw [← ht]
      exact hr

unseal Rat.add Rat.mul Rat.sub Rat.inv in
/-- Witness for claim C1.  Sampling the single-outcome identity instrument on
a fresh 1-qubit simulator with `u = 1/2` returns `Ok(0)`, and the theorem's
characterization holds at that concrete run. -/
theorem sample_with_distribution_selects_last_witness :
    (DensityMatrixSimulator.new 1).sample_instrument_with_distribution applyKernelSpec
        idInstr [0] (mkRat 1 2) = (DensityMatrixSimulator.new 1, .ok 0) ∧
    (∃ st d0 s t,
      (DensityMatrixSimulator.new 1).state = .ok st ∧
      applyKernelSpec st.data idInstr.total_effect_transposed [0] = .ok d0 ∧
      specSelect (branchTrace applyKernelSpec st idInstr [0])
        (DensityMatrix.trace { st with data := d0 }) (mkRat 1 2)
        (List.range idInstr.num_operations) 0 none = .ok (s, some (0, t)) ∧
      TOLERANCE ≤ t ∧
      ∃ st2, st.apply_operation_matrix applyKernelSpec (idInstr.operation 0).matrix [0] =
          (st2, .ok ()) ∧
        ∃ st3, st2.renormalize_with_trace t = (st3, .ok ()) ∧
          DensityMatrixSimulator.new 1 =
            { DensityMatrixSimulator.new 1 with state := .ok st3 }) := by
  have hh : (DensityMatrixSimulator.new 1).sample_instrument_with_distribution
      applyKernelSpec idInstr [0] (mkRat 1 2) =
        (DensityMatrixSimulator.new 1, .ok 0) := by
    decide
  exact ⟨hh, sample_with_distribution_selects_last applyKernelSpec
    (DensityMatrixSimulator.new 1) (DensityMatrixSimulator.new 1) idInstr [0]
    (mkRat 1 2) 0 hh⟩
